import Mathlib

/-!
# Verification of the newsletter-generation request handler

Shallow embedding of `src/app/api/generate-newsletter/route.ts`.

JavaScript strings are modelled by Lean `String` (a structure over `List Char`),
and the JS string methods used by the source (`trim`, `includes`, `startsWith`-style
regex anchoring, slicing) are modelled as explicit functions over the character
list.  JavaScript numbers appearing in the source are integers in every code
path the spec speaks about, so they are modelled by `Int` with exact arithmetic;
`toFixed(0)` is modelled by round-half-up (the ECMA-262 rule "pick the larger n"
on ties).

External effects (the Perplexity research API, the two `generateText` calls and
the remark markdown renderer) are modelled by an oracle record `Env`; each
consultation of an oracle is recorded in a call trace so that "never calls X"
claims are literal statements about the trace.
-/

namespace NewsletterBot

/-! ## JavaScript string primitives -/

/-- Model of `String.prototype.trim`: drop whitespace from both ends. -/
def jsTrim (s : String) : String :=
  ⟨((s.data.dropWhile Char.isWhitespace).reverse.dropWhile Char.isWhitespace).reverse⟩

/-- Model of `String.prototype.includes`: `pat` occurs as a contiguous
substring of `s`. -/
def jsIncludes (s pat : String) : Bool :=
  s.data.tails.any fun t => pat.data.isPrefixOf t

/-- Model of matching the anchored regex alternative `^```(?:json)?\s*`
followed by the end-anchored alternative ` ```$ ` of
`assistantMessage.replace(/(^```(?:json)?\s*|```$)/g, "")`:
remove a leading fence (with its trailing whitespace run) if present,
then remove a trailing ` ``` ` if present. -/
def stripCodeFences (s : String) : String :=
  let s1 : String :=
    if "```json".data.isPrefixOf s.data then ⟨(s.data.drop 7).dropWhile Char.isWhitespace⟩
    else if "```".data.isPrefixOf s.data then ⟨(s.data.drop 3).dropWhile Char.isWhitespace⟩
    else s
  if "```".data.isSuffixOf s1.data then ⟨s1.data.take (s1.data.length - 3)⟩ else s1

/-- The full cleaning applied to the research response text before `JSON.parse`:
fence stripping followed by `.trim()`. -/
def cleanResponse (s : String) : String :=
  jsTrim (stripCodeFences s)

/-! ## Data model

The structured company record of the source (`story_template` and the
`company_data` parameter of `research_company`).  Scalar fields that the
TypeScript type declares as `T | null` are `Option T`; a *supplied* record
may additionally omit a field entirely (object-spread semantics), which is
one more `Option` layer. -/

structure Context where
  market_size : Option String
  key_players : List String
  recent_developments : List String
deriving DecidableEq

structure Metrics where
  revenue : Option Int
  funding : Option Int
  market_share : Option Int
  growth_rate : Option Int
deriving DecidableEq

structure BusinessModel where
  core_offering : Option String
  unit_economics : Option String
  channels : List String
  partnerships : List String
deriving DecidableEq

/-- A story record: the template plus the generated headline. -/
structure Story where
  headline : Option String
  context : Context
  metrics : Metrics
  business_model : BusinessModel
  analysis_points : List String
deriving DecidableEq

/-- Caller-supplied `metrics` object: each field may be absent (outer `none`)
or present with a possibly-null value (inner `Option`). -/
structure SuppliedMetrics where
  revenue : Option (Option Int)
  funding : Option (Option Int)
  market_share : Option (Option Int)
  growth_rate : Option (Option Int)
deriving DecidableEq

structure SuppliedBusinessModel where
  core_offering : Option (Option String)
  unit_economics : Option (Option String)
  channels : Option (List String)
  partnerships : Option (List String)
deriving DecidableEq

structure SuppliedContext where
  market_size : Option (Option String)
  key_players : Option (List String)
  recent_developments : Option (List String)
deriving DecidableEq

structure SuppliedData where
  metrics : SuppliedMetrics
  business_model : SuppliedBusinessModel
  context : SuppliedContext
  analysis_points : Option (List String)
deriving DecidableEq

/-- The `story_template` field initialised by the `NewsletterResearchBot`
constructor. -/
def story_template : Story :=
  { headline := none
    context := { market_size := none, key_players := [], recent_developments := [] }
    metrics := { revenue := none, funding := none, market_share := none, growth_rate := none }
    business_model :=
      { core_offering := none, unit_economics := none, channels := [], partnerships := [] }
    analysis_points := [] }

/-! ## Object-spread merges

`{ ...base, ...supplied }` keeps the base value exactly for the fields the
supplied object does not carry. -/

def mergeMetrics (base : Metrics) (sup : SuppliedMetrics) : Metrics :=
  { revenue := sup.revenue.getD base.revenue
    funding := sup.funding.getD base.funding
    market_share := sup.market_share.getD base.market_share
    growth_rate := sup.growth_rate.getD base.growth_rate }

def mergeBusinessModel (base : BusinessModel) (sup : SuppliedBusinessModel) : BusinessModel :=
  { core_offering := sup.core_offering.getD base.core_offering
    unit_economics := sup.unit_economics.getD base.unit_economics
    channels := sup.channels.getD base.channels
    partnerships := sup.partnerships.getD base.partnerships }

def mergeContext (base : Context) (sup : SuppliedContext) : Context :=
  { market_size := sup.market_size.getD base.market_size
    key_players := sup.key_players.getD base.key_players
    recent_developments := sup.recent_developments.getD base.recent_developments }

/-- Method `research_company` with the `generate_hook` result factored out as the
`hook` argument (the method awaits `generate_hook` and stores its result):
shallow-copy the template, set the headline, merge each nested object with
the supplied one, and default `analysis_points` with `|| []`.
(`company_data.analysis_points || []` is the supplied list when the key is
present — a JS array, even empty, is truthy — and `[]` when absent.) -/
def research_company (template : Story) (hook : String) (company_data : SuppliedData) : Story :=
  { headline := some hook
    metrics := mergeMetrics template.metrics company_data.metrics
    business_model := mergeBusinessModel template.business_model company_data.business_model
    context := mergeContext template.context company_data.context
    analysis_points := company_data.analysis_points.getD [] }

/-! ## Numeric formatting (`format_metrics`) -/

/-- Model of `(x).toFixed(0)` for the nonnegative rational `num / den`, `den > 0`:
the integer nearest to the quotient, ties resolved upward (ECMA-262 picks the
larger candidate). -/
def jsToFixed0 (num den : Nat) : Nat :=
  (2 * num + den) / (2 * den)

/-- Insert a separator into a reversed digit list: `k` digits remain in the
current group, a fresh group has `step` digits. -/
def groupRev (k step : Nat) : List Char → List Char
  | [] => []
  | c :: l =>
    if k = 0 then ',' :: c :: groupRev (step - 1) step l
    else c :: groupRev (k - 1) step l

/-- Digit-group a natural number: first (rightmost) group of `first` digits,
then groups of `step`. -/
def groupDigits (first step : Nat) (n : Nat) : String :=
  ⟨(groupRev first step (Nat.repr n).data.reverse).reverse⟩

/-- Model of `Number.prototype.toLocaleString("en-IN")` for integers: rightmost group
of three digits, then groups of two. -/
def toLocaleStringIN (v : Int) : String :=
  (if v < 0 then "-" else "") ++ groupDigits 3 2 v.natAbs

/-- Model of `Number.prototype.toLocaleString("en-US")` for integers: groups of three. -/
def toLocaleStringUS (v : Int) : String :=
  (if v < 0 then "-" else "") ++ groupDigits 3 3 v.natAbs

/-- The `format_metrics` method, verbatim branch structure. -/
def format_metrics (value : Int) (metric_type : String) : String :=
  if metric_type = "inr" then
    if value ≥ 10000000 then
      "₹" ++ toString (jsToFixed0 value.toNat 10000000) ++ " crores"
    else
      "₹" ++ toLocaleStringIN value
  else if metric_type = "usd" then
    if value ≥ 1000000 then
      "$" ++ toString (jsToFixed0 value.toNat 1000000) ++ "M"
    else
      "$" ++ toLocaleStringUS value
  else
    toString value

/-! ## The request pipeline

The `company_data` field of the request body is untyped JSON; the handler
only ever tests it for truthiness (`if (!company_data)`) and, when truthy,
reads the profile properties off it (property access on a truthy primitive
yields `undefined` for every key, i.e. a fully-absent supplied record). -/

/-- A JSON value as far as the handler inspects it: absent, `null`, a
primitive, or an object carrying the profile shape. -/
inductive JsValue where
  | undefined : JsValue
  | null : JsValue
  | bool (b : Bool) : JsValue
  | num (n : Int) : JsValue
  | str (s : String) : JsValue
  | obj (d : SuppliedData) : JsValue
deriving DecidableEq

/-- JavaScript truthiness of a `JsValue`. -/
def truthy : JsValue → Bool
  | .undefined => false
  | .null => false
  | .bool b => b
  | .num n => n != 0
  | .str s => s != ""
  | .obj _ => true

/-- JavaScript truthiness of a nullable string (`!story.headline`,
`!rawApiResponse`). -/
def optStrTruthy : Option String → Bool
  | none => false
  | some s => s != ""

/-- Reading the profile properties off a truthy `company_data` value:
an object gives its fields, a primitive gives `undefined` everywhere. -/
def asData : JsValue → SuppliedData
  | .obj d => d
  | _ =>
    { metrics := { revenue := none, funding := none, market_share := none, growth_rate := none }
      business_model :=
        { core_offering := none, unit_economics := none, channels := none, partnerships := none }
      context := { market_size := none, key_players := none, recent_developments := none }
      analysis_points := none }

/-- The external world of one request: the environment variable, the outcome
of the Perplexity transport, `JSON.parse` as a fixed partial function, the
two `generateText` calls (`.error` = the awaited promise rejects, carrying the
`Error` message) and the remark renderer. -/
structure Env where
  perplexityKey : Option String
  perplexityResponse : Except String String
  parseJson : String → Option JsValue
  hookResponse : Except String String
  storyResponse : Except String String
  md2html : String → Except String String

/-- One entry of the external-call trace. -/
inductive Call where
  | perplexity : Call
  | generateHook : Call
  | formatStory (story : Story) : Call
  | render (markdown : String) : Call
deriving DecidableEq

/-- The body of a 200 response. -/
structure SuccessBody where
  story : String
  htmlContent : String
  isMarkdown : Bool
  rawApiResponse : Option String
deriving DecidableEq

/-- Outcome of the handler: a 200 JSON body, or a 500 with `\x7berror: msg\x7d`. -/
inductive PostResult where
  | ok (body : SuccessBody) : PostResult
  | serverError (msg : String) : PostResult
deriving DecidableEq

/-- The generic message of the top-level catch. -/
def genericError : String := "Failed to generate newsletter"

/-- Function `researchCompanyWithPerplexity`: missing/empty credential throws before
the HTTP call; otherwise the call is made (traced), a transport rejection
propagates its message, and on a response the assistant text is fence-stripped,
trimmed and `JSON.parse`d, a parse failure throwing the fixed message. -/
def researchCompanyWithPerplexity (env : Env) : Except String JsValue × List Call :=
  if env.perplexityKey.getD "" = "" then
    (.error "Perplexity API key is not set", [])
  else
    match env.perplexityResponse with
    | .error msg => (.error msg, [.perplexity])
    | .ok content =>
      match env.parseJson (cleanResponse content) with
      | none => (.error "Failed to parse JSON response from Perplexity", [.perplexity])
      | some v => (.ok v, [.perplexity])

/-- Lines 214–227 of the handler: `research_data` starts as `company_data`;
if that is falsy the Perplexity helper runs, a success replacing
`research_data` and a caught error leaving it in place while recording the
error message in `rawApiResponse`. -/
def acquire (env : Env) (company_data : JsValue) : JsValue × Option String × List Call :=
  if truthy company_data then
    (company_data, none, [])
  else
    match researchCompanyWithPerplexity env with
    | (.ok v, tr) => (v, none, tr)
    | (.error msg, tr) => (company_data, some msg, tr)

/-- Lines 267–281: markdown detection on the final story text, optional
rendering, and response assembly. -/
def finish (env : Env) (formatted_story : String) (rawApiResponse : Option String)
    (tr : List Call) : PostResult × List Call :=
  if jsIncludes formatted_story "##" || jsIncludes formatted_story "*" then
    match env.md2html formatted_story with
    | .error _ => (.serverError genericError, tr ++ [.render formatted_story])
    | .ok htmlContent =>
      (.ok { story := formatted_story, htmlContent := htmlContent,
             isMarkdown := true, rawApiResponse := rawApiResponse },
       tr ++ [.render formatted_story])
  else
    (.ok { story := formatted_story, htmlContent := "",
           isMarkdown := false, rawApiResponse := rawApiResponse },
     tr)

/-- The POST handler.  Every `throw` inside the `try` lands in the single
catch, which answers 500 with `genericError`.  The company name only feeds
the prompts, which the oracles abstract over, so it does not appear. -/
def POST (env : Env) (company_data : JsValue) : PostResult × List Call :=
  match acquire env company_data with
  | (research_data, rawApiResponse, tr) =>
    if !truthy research_data && !optStrTruthy rawApiResponse then
      (.serverError genericError, tr)
    else if truthy research_data then
      match env.hookResponse with
      | .error _ => (.serverError genericError, tr ++ [.generateHook])
      | .ok t =>
        if !optStrTruthy (research_company story_template (jsTrim t)
            (asData research_data)).headline then
          (.serverError genericError, tr ++ [.generateHook])
        else
          match env.storyResponse with
          | .error _ =>
            (.serverError genericError,
             tr ++ [.generateHook,
                    .formatStory (research_company story_template (jsTrim t)
                      (asData research_data))])
          | .ok s =>
            finish env (jsTrim s) rawApiResponse
              (tr ++ [.generateHook,
                      .formatStory (research_company story_template (jsTrim t)
                        (asData research_data))])
    else
      finish env "" rawApiResponse tr

/-! ## Heap model of `research_company`

`const story = ...this.story_template` (object spread) is a *shallow* copy:
the copy holds the same references to the nested `context`, `metrics` and
`business_model` objects as the template.  The method then *reassigns* those
fields of the copy to freshly spread objects; it never writes through the
shared references.  To verify that the template is not mutated we model the
nested objects in an explicit heap of addressed cells and re-trace the
method's assignments.  (`analysis_points` is also reassigned, never pushed
to, so the array is carried by value here.) -/

inductive HObj where
  | ctx (c : Context) : HObj
  | met (m : Metrics) : HObj
  | bm (b : BusinessModel) : HObj
deriving DecidableEq

structure Heap where
  mem : Nat → Option HObj
  next : Nat

def Heap.empty : Heap := { mem := fun _ => none, next := 0 }

def Heap.alloc (h : Heap) (o : HObj) : Heap × Nat :=
  ({ mem := fun a => if a = h.next then some o else h.mem a, next := h.next + 1 }, h.next)

def Heap.readCtx (h : Heap) (a : Nat) : Option Context :=
  match h.mem a with
  | some (.ctx c) => some c
  | _ => none

def Heap.readMet (h : Heap) (a : Nat) : Option Metrics :=
  match h.mem a with
  | some (.met m) => some m
  | _ => none

def Heap.readBm (h : Heap) (a : Nat) : Option BusinessModel :=
  match h.mem a with
  | some (.bm b) => some b
  | _ => none

/-- A story object whose nested records live in the heap. -/
structure StoryObj where
  headline : Option String
  context : Nat
  metrics : Nat
  business_model : Nat
  analysis_points : List String
deriving DecidableEq

/-- The bot: its only state is `story_template`. -/
structure Bot where
  story_template : StoryObj
deriving DecidableEq

/-- The `NewsletterResearchBot` constructor: allocate the template's nested
default objects and keep their addresses. -/
def mkBot (h : Heap) : Bot × Heap :=
  let pc := h.alloc (.ctx { market_size := none, key_players := [], recent_developments := [] })
  let pm := pc.1.alloc
    (.met { revenue := none, funding := none, market_share := none, growth_rate := none })
  let pb := pm.1.alloc
    (.bm { core_offering := none, unit_economics := none, channels := [], partnerships := [] })
  (⟨{ headline := none, context := pc.2, metrics := pm.2, business_model := pb.2,
      analysis_points := [] }⟩,
   pb.1)

/-- Method `research_company` over the heap.  `hook` is the awaited `generate_hook`
result.  Each `story.f = \x7b ...story.f, ...company_data.f \x7d` line reads the
object the copied reference points at, allocates the merged object, and
reassigns the field of the copy to the fresh address.  `none` is returned
only if a read fails (impossible for a bot built by `mkBot`). -/
def research_company_js (bot : Bot) (h : Heap) (hook : String) (company_data : SuppliedData) :
    Option (StoryObj × Heap) := do
  let story0 := bot.story_template
  let story1 := { story0 with headline := some hook }
  let m0 ← h.readMet story1.metrics
  let pm := h.alloc (.met (mergeMetrics m0 company_data.metrics))
  let story2 := { story1 with metrics := pm.2 }
  let b0 ← pm.1.readBm story2.business_model
  let pb := pm.1.alloc (.bm (mergeBusinessModel b0 company_data.business_model))
  let story3 := { story2 with business_model := pb.2 }
  let c0 ← pb.1.readCtx story3.context
  let pc := pb.1.alloc (.ctx (mergeContext c0 company_data.context))
  let story4 := { story3 with context := pc.2 }
  some ({ story4 with analysis_points := company_data.analysis_points.getD [] }, pc.1)

example : format_metrics 5000000000 "inr" = "₹500 crores" := by decide
example : format_metrics 1234567 "inr" = "₹12,34,567" := by decide
example : format_metrics 12345678 "inr" = "₹1 crores" := by decide
example : format_metrics 2500000 "usd" = "$3M" := by decide
example : format_metrics 123456 "usd" = "$123,456" := by decide
example : format_metrics (-54321) "inr" = "₹-54,321" := by decide
example : format_metrics 42 "eur" = "42" := by decide
example : cleanResponse "```json\n\x7b\"a\":1\x7d\n```" = "\x7b\"a\":1\x7d" := by decide
example : cleanResponse "```\nhello\n```" = "hello" := by decide
example : cleanResponse "  plain  " = "plain" := by decide
example : jsIncludes "a ## b" "##" = true := by decide
example : jsIncludes "plain" "##" = false := by decide

/-! Smoke tests of the pipeline on concrete environments. -/

def emptySupplied : SuppliedData :=
  { metrics := { revenue := none, funding := none, market_share := none, growth_rate := none }
    business_model :=
      { core_offering := none, unit_economics := none, channels := none, partnerships := none }
    context := { market_size := none, key_players := none, recent_developments := none }
    analysis_points := none }

def envA : Env :=
  { perplexityKey := none
    perplexityResponse := .error "network down"
    parseJson := fun _ => none
    hookResponse := .ok " A headline "
    storyResponse := .ok "Body with ## heading"
    md2html := fun s => .ok ("<h1>" ++ s ++ "</h1>") }

example :
    POST envA (.obj emptySupplied) =
      (.ok { story := "Body with ## heading",
             htmlContent := "<h1>Body with ## heading</h1>",
             isMarkdown := true, rawApiResponse := none },
       [.generateHook,
        .formatStory (research_company story_template "A headline" emptySupplied),
        .render "Body with ## heading"]) := by
  decide

example :
    POST envA .undefined =
      (.ok { story := "", htmlContent := "", isMarkdown := false,
             rawApiResponse := some "Perplexity API key is not set" },
       []) := by
  decide

example :
    POST { envA with hookResponse := .ok "   " } (.obj emptySupplied) =
      (.serverError genericError, [.generateHook]) := by
  decide

/-! ## Helper lemmas about the pipeline -/

lemma rcwp_trace (env : Env) :
    (researchCompanyWithPerplexity env).2 = [] ∨
      (researchCompanyWithPerplexity env).2 = [Call.perplexity] := by
  unfold researchCompanyWithPerplexity
  split
  · exact Or.inl rfl
  · split
    · exact Or.inr rfl
    · split
      · exact Or.inr rfl
      · exact Or.inr rfl

lemma rcwp_called (env : Env) (hk : env.perplexityKey.getD "" ≠ "") :
    (researchCompanyWithPerplexity env).2 = [Call.perplexity] := by
  unfold researchCompanyWithPerplexity
  rw [if_neg hk]
  split
  · rfl
  · split
    · rfl
    · rfl

lemma acquire_trace (env : Env) (cd : JsValue) :
    (acquire env cd).2.2 = [] ∨ (acquire env cd).2.2 = [Call.perplexity] := by
  unfold acquire
  split
  · exact Or.inl rfl
  · rcases hr : researchCompanyWithPerplexity env with ⟨res, tr⟩
    have htr := rcwp_trace env
    rw [hr] at htr
    cases res
    · simpa using htr
    · simpa using htr

lemma finish_trace (env : Env) (fs : String) (raw : Option String) (tr : List Call) :
    (finish env fs raw tr).2 = tr ∨ (finish env fs raw tr).2 = tr ++ [Call.render fs] := by
  unfold finish
  split
  · split
    · exact Or.inr rfl
    · exact Or.inr rfl
  · exact Or.inl rfl

lemma finish_notmd_trace (env : Env) (fs : String) (raw : Option String) (tr : List Call)
    (hmd : (jsIncludes fs "##" || jsIncludes fs "*") = false) :
    (finish env fs raw tr).2 = tr := by
  simp [finish, hmd]

lemma finish_error (env : Env) (fs : String) (raw : Option String) (tr : List Call)
    (msg : String) (h : (finish env fs raw tr).1 = .serverError msg) : msg = genericError := by
  unfold finish at h
  split at h
  · split at h
    · exact (PostResult.serverError.inj h).symm
    · exact absurd h (by simp)
  · exact absurd h (by simp)

lemma finish_ok (env : Env) (fs : String) (raw : Option String) (tr : List Call)
    (b : SuccessBody) (h : (finish env fs raw tr).1 = .ok b) :
    b.story = fs ∧ b.rawApiResponse = raw ∧
      b.isMarkdown = (jsIncludes fs "##" || jsIncludes fs "*") ∧
      (b.isMarkdown = true → env.md2html fs = .ok b.htmlContent) ∧
      (b.isMarkdown = false → b.htmlContent = "") := by
  unfold finish at h
  split at h
  case isTrue hmd =>
    split at h
    · exact absurd h (by simp)
    case h_2 x content heq =>
      have hb := (PostResult.ok.inj h).symm
      subst hb
      refine ⟨rfl, rfl, by simpa using hmd.symm, fun _ => heq, by simp⟩
  case isFalse hmd =>
    have hb := (PostResult.ok.inj h).symm
    subst hb
    simp only [Bool.or_eq_true, not_or, Bool.not_eq_true] at hmd
    exact ⟨rfl, rfl, by simp [hmd.1, hmd.2], by simp, fun _ => rfl⟩

lemma research_company_headline (tpl : Story) (hook : String) (d : SuppliedData) :
    (research_company tpl hook d).headline = some hook := rfl

/-- Every run of the handler either answers the generic 500 or reaches the
rendering stage `finish` with a render-free incoming trace. -/
lemma post_shape (env : Env) (cd : JsValue) :
    (∃ tr, POST env cd = (.serverError genericError, tr)) ∨
      (∃ fs raw tr, POST env cd = finish env fs raw tr ∧ ∀ s, Call.render s ∉ tr) := by
  rcases hacq : acquire env cd with ⟨rd, raw, tr⟩
  have htr : tr = [] ∨ tr = [Call.perplexity] := by
    have h := acquire_trace env cd
    rw [hacq] at h
    simpa using h
  have hnotr : ∀ s, Call.render s ∉ tr := by
    intro s hs
    rcases htr with h1 | h1 <;> simp [h1] at hs
  unfold POST
  rw [hacq]
  dsimp only
  split
  · exact Or.inl ⟨tr, rfl⟩
  · split
    · split
      · exact Or.inl ⟨tr ++ [Call.generateHook], rfl⟩
      · split
        · exact Or.inl ⟨tr ++ [Call.generateHook], rfl⟩
        · split
          · exact Or.inl ⟨_, rfl⟩
          · refine Or.inr ⟨_, _, _, rfl, ?_⟩
            intro s hs
            simp only [List.mem_append, List.mem_cons, List.mem_singleton] at hs
            rcases hs with hs | hs | hs | hs
            · exact hnotr s hs
            · exact Call.noConfusion hs
            · exact Call.noConfusion hs
            · exact List.not_mem_nil _ hs
    · exact Or.inr ⟨"", raw, tr, rfl, hnotr⟩

/-- C8: every error that reaches the top-level catch produces a 500 whose
body carries exactly the generic message "Failed to generate newsletter";
no internal error detail is exposed. -/
theorem post_500_body_is_generic (env : Env) (cd : JsValue) (msg : String)
    (h : (POST env cd).1 = .serverError msg) : msg = "Failed to generate newsletter" := by
  rcases post_shape env cd with ⟨tr, he⟩ | ⟨fs, raw, tr, he, _⟩
  · rw [he] at h
    exact (PostResult.serverError.inj h).symm
  · rw [he] at h
    exact finish_error env fs raw tr msg h

/-- Witness for C8: a concrete run (hook generation rejects) hits the catch
and the body is the generic message. -/
theorem post_500_body_is_generic_witness :
    (POST { envA with hookResponse := .error "boom" } (.obj emptySupplied)).1 =
        .serverError genericError ∧
      genericError = "Failed to generate newsletter" :=
  ⟨by decide,
   post_500_body_is_generic { envA with hookResponse := .error "boom" }
     (.obj emptySupplied) genericError (by decide)⟩

/-- C6: if the acquisition phase ends with neither a truthy profile value nor
a truthy recorded error message, the handler throws and answers 500 instead
of 200. -/
theorem no_data_no_error_fails (env : Env) (cd : JsValue)
    (h1 : truthy (acquire env cd).1 = false)
    (h2 : optStrTruthy (acquire env cd).2.1 = false) :
    (POST env cd).1 = .serverError "Failed to generate newsletter" := by
  rcases hacq : acquire env cd with ⟨rd, raw, tr⟩
  rw [hacq] at h1 h2
  unfold POST
  rw [hacq]
  dsimp only
  rw [if_pos (by simp [h1, h2])]
  rfl

/-- Concrete environment whose research call parses to the falsy JSON value
`null`: acquisition yields no data and records no error. -/
def envC6 : Env :=
  { envA with perplexityKey := some "key", perplexityResponse := .ok "null",
              parseJson := fun _ => some .null }

/-- Witness for C6. -/
theorem no_data_no_error_fails_witness :
    (POST envC6 .undefined).1 = .serverError "Failed to generate newsletter" :=
  no_data_no_error_fails envC6 .undefined (by decide) (by decide)

/-- C2: when acquisition yielded a (truthy) profile and the headline comes
back as whitespace only (empty after trimming), the handler answers 500 and
the full-story generation step is never invoked. -/
theorem empty_headline_stops_pipeline (env : Env) (cd : JsValue) (t : String)
    (hrd : truthy (acquire env cd).1 = true)
    (hhook : env.hookResponse = .ok t)
    (hempty : jsTrim t = "") :
    (POST env cd).1 = .serverError "Failed to generate newsletter" ∧
      ∀ s, Call.formatStory s ∉ (POST env cd).2 := by
  rcases hacq : acquire env cd with ⟨rd, raw, tr⟩
  rw [hacq] at hrd
  have htr : tr = [] ∨ tr = [Call.perplexity] := by
    have h := acquire_trace env cd
    rw [hacq] at h
    simpa using h
  unfold POST
  rw [hacq]
  dsimp only
  rw [if_neg (by simp [hrd]), if_pos hrd, hhook]
  dsimp only
  rw [if_pos (by simp [research_company_headline, hempty, optStrTruthy])]
  refine ⟨rfl, fun s hs => ?_⟩
  simp only [List.mem_append, List.mem_singleton] at hs
  rcases hs with hs | hs
  · rcases htr with h1 | h1 <;> simp [h1] at hs
  · exact Call.noConfusion hs

/-- Witness for C2: a concrete run with a whitespace-only headline. -/
theorem empty_headline_stops_pipeline_witness :
    (POST { envA with hookResponse := .ok "  " } (.obj emptySupplied)).1 =
      .serverError "Failed to generate newsletter" :=
  (empty_headline_stops_pipeline { envA with hookResponse := .ok "  " }
    (.obj emptySupplied) "  " (by decide) rfl (by decide)).1

lemma acquire_trace_eq (env : Env) (cd : JsValue) (h : truthy cd = false) :
    (acquire env cd).2.2 = (researchCompanyWithPerplexity env).2 := by
  unfold acquire
  rw [if_neg (by simp [h])]
  rcases researchCompanyWithPerplexity env with ⟨res, tr⟩
  cases res
  · rfl
  · rfl

/-- The call trace of a run extends the acquisition trace. -/
lemma post_trace_extends (env : Env) (cd : JsValue) :
    ∃ rest, (POST env cd).2 = (acquire env cd).2.2 ++ rest := by
  rcases hacq : acquire env cd with ⟨rd, raw, tr⟩
  have hfin : ∀ fs fraw add, ∃ rest, (finish env fs fraw (tr ++ add)).2 = tr ++ rest := by
    intro fs fraw add
    rcases finish_trace env fs fraw (tr ++ add) with hf | hf
    · exact ⟨add, hf⟩
    · exact ⟨add ++ [Call.render fs], by rw [hf, List.append_assoc]⟩
  unfold POST
  rw [hacq]
  dsimp only
  split
  · exact ⟨[], (List.append_nil tr).symm⟩
  · split
    · split
      · exact ⟨[Call.generateHook], rfl⟩
      · split
        · exact ⟨[Call.generateHook], rfl⟩
        · split
          · exact ⟨_, rfl⟩
          · exact hfin _ _ _
    · rcases finish_trace env "" raw tr with hf | hf
      · exact ⟨[], by rw [hf, List.append_nil]⟩
      · exact ⟨_, hf⟩

/-- C3: with no supplied profile, any acquisition failure (missing credential,
transport rejection, or JSON parse failure) with a non-empty message is
downgraded: the handler answers 200 with an empty story, empty HTML, no
markdown flag and the failure message as `rawApiResponse`, and neither
headline generation, story generation nor rendering runs. -/
theorem acquisition_failure_returns_200 (env : Env) (cd : JsValue) (msg : String)
    (hcd : truthy cd = false)
    (herr : (researchCompanyWithPerplexity env).1 = .error msg)
    (hne : msg ≠ "") :
    (POST env cd).1 = .ok { story := "", htmlContent := "", isMarkdown := false,
                            rawApiResponse := some msg } ∧
      Call.generateHook ∉ (POST env cd).2 ∧
      (∀ s, Call.formatStory s ∉ (POST env cd).2) ∧
      (∀ s, Call.render s ∉ (POST env cd).2) := by
  rcases hr : researchCompanyWithPerplexity env with ⟨res, tr⟩
  rw [hr] at herr
  dsimp only at herr
  subst herr
  have htr : tr = [] ∨ tr = [Call.perplexity] := by
    have h := rcwp_trace env
    rw [hr] at h
    simpa using h
  have hacq : acquire env cd = (cd, some msg, tr) := by
    unfold acquire
    rw [if_neg (by simp [hcd]), hr]
  unfold POST
  rw [hacq]
  dsimp only
  rw [if_neg (by simp [hcd, optStrTruthy, hne]), if_neg (by simp [hcd])]
  have hmd : (jsIncludes "" "##" || jsIncludes "" "*") = false := by decide
  have htrace : (finish env "" (some msg) tr).2 = tr := finish_notmd_trace env "" (some msg) tr hmd
  refine ⟨by simp [finish, hmd], ?_, ?_, ?_⟩
  · rw [htrace]
    intro hs
    rcases htr with h1 | h1 <;> simp [h1] at hs
  · intro s
    rw [htrace]
    intro hs
    rcases htr with h1 | h1 <;> simp [h1] at hs
  · intro s
    rw [htrace]
    intro hs
    rcases htr with h1 | h1 <;> simp [h1] at hs

/-- Witness for C3: a request with `company_data: null` and no configured
research credential. -/
theorem acquisition_failure_returns_200_witness :
    (POST envA .null).1 = .ok { story := "", htmlContent := "", isMarkdown := false,
                                rawApiResponse := some "Perplexity API key is not set" } :=
  (acquisition_failure_returns_200 envA .null "Perplexity API key is not set"
    (by decide) rfl (by decide)).1

/-- C9: the supplied-profile test is JS truthiness of `company_data`, so a
body carrying any falsy value (`null`, `false`, `0`, `""`) behaves exactly
like one with the field omitted, and (when the credential is set) the
external research call fires. -/
theorem falsy_company_data_triggers_research (env : Env) (cd : JsValue)
    (h : truthy cd = false) :
    POST env cd = POST env .undefined ∧
      (env.perplexityKey.getD "" ≠ "" → Call.perplexity ∈ (POST env cd).2) := by
  constructor
  · rcases hr : researchCompanyWithPerplexity env with ⟨res, tr⟩
    cases res with
    | ok v =>
      have hacq1 : acquire env cd = (v, none, tr) := by
        unfold acquire
        rw [if_neg (by simp [h]), hr]
      have hacq2 : acquire env .undefined = (v, none, tr) := by
        unfold acquire
        rw [if_neg (by simp [truthy]), hr]
      unfold POST
      rw [hacq1, hacq2]
    | error m =>
      have hacq1 : acquire env cd = (cd, some m, tr) := by
        unfold acquire
        rw [if_neg (by simp [h]), hr]
      have hacq2 : acquire env .undefined = (.undefined, some m, tr) := by
        unfold acquire
        rw [if_neg (by simp [truthy]), hr]
      unfold POST
      rw [hacq1, hacq2]
      dsimp only
      have h0 : truthy JsValue.undefined = false := rfl
      cases hm : optStrTruthy (some m) <;> rw [h, h0] <;> rfl
  · intro hk
    obtain ⟨rest, hrest⟩ := post_trace_extends env cd
    rw [hrest, acquire_trace_eq env cd h, rcwp_called env hk]
    simp

/-- Concrete environment with a configured credential whose research call
fails in transport. -/
def envB : Env := { envA with perplexityKey := some "key" }

/-- Witness for C9: `company_data: 0` behaves like an absent field and the
research call fires. -/
theorem falsy_company_data_triggers_research_witness :
    POST envB (.num 0) = POST envB .undefined ∧
      Call.perplexity ∈ (POST envB (.num 0)).2 :=
  ⟨(falsy_company_data_triggers_research envB (.num 0) (by decide)).1,
   (falsy_company_data_triggers_research envB (.num 0) (by decide)).2 (by decide)⟩

/-- C5: on every 200 response, `isMarkdown` holds exactly when the final
story text contains "##" or "*"; when it holds, `htmlContent` is the
renderer's output on the story (non-empty whenever the renderer is non-empty
on non-empty input), and when it does not, `htmlContent` is empty and the
renderer was never invoked. -/
theorem markdown_detection_spec (env : Env) (cd : JsValue) (b : SuccessBody)
    (hok : (POST env cd).1 = .ok b) :
    b.isMarkdown = (jsIncludes b.story "##" || jsIncludes b.story "*") ∧
      (b.isMarkdown = true → env.md2html b.story = .ok b.htmlContent) ∧
      (b.isMarkdown = false → b.htmlContent = "" ∧
        ∀ s, Call.render s ∉ (POST env cd).2) ∧
      (b.isMarkdown = true →
        (∀ html, env.md2html b.story = .ok html → html ≠ "") → b.htmlContent ≠ "") := by
  rcases post_shape env cd with ⟨tr, he⟩ | ⟨fs, raw, tr, he, hnotr⟩
  · rw [he] at hok
    exact absurd hok (by simp)
  · rw [he] at hok
    obtain ⟨hstory, hraw, hmd, hmdt, hmdf⟩ := finish_ok env fs raw tr b hok
    subst hstory
    refine ⟨hmd, hmdt, ?_, ?_⟩
    · intro hf
      refine ⟨hmdf hf, ?_⟩
      rw [he, finish_notmd_trace env b.story raw tr (by rw [← hmd]; exact hf)]
      exact hnotr
    · intro ht hne
      exact hne b.htmlContent (hmdt ht)

/-- Witness for C5: the concrete successful run of `envA`. -/
theorem markdown_detection_spec_witness :
    ({ story := "Body with ## heading", htmlContent := "<h1>Body with ## heading</h1>",
       isMarkdown := true, rawApiResponse := none } : SuccessBody).isMarkdown =
      (jsIncludes "Body with ## heading" "##" || jsIncludes "Body with ## heading" "*") :=
  (markdown_detection_spec envA (.obj emptySupplied) _ (by decide)).1

/-- The statement that a story carries each supplied profile field verbatim,
and the template defaults exactly on the absent fields. -/
def preservesSupplied (d : SuppliedData) (s : Story) : Prop :=
  (∀ x, d.metrics.revenue = some x → s.metrics.revenue = x) ∧
  (d.metrics.revenue = none → s.metrics.revenue = none) ∧
  (∀ x, d.metrics.funding = some x → s.metrics.funding = x) ∧
  (d.metrics.funding = none → s.metrics.funding = none) ∧
  (∀ x, d.metrics.market_share = some x → s.metrics.market_share = x) ∧
  (d.metrics.market_share = none → s.metrics.market_share = none) ∧
  (∀ x, d.metrics.growth_rate = some x → s.metrics.growth_rate = x) ∧
  (d.metrics.growth_rate = none → s.metrics.growth_rate = none) ∧
  (∀ x, d.business_model.core_offering = some x → s.business_model.core_offering = x) ∧
  (d.business_model.core_offering = none → s.business_model.core_offering = none) ∧
  (∀ x, d.business_model.unit_economics = some x → s.business_model.unit_economics = x) ∧
  (d.business_model.unit_economics = none → s.business_model.unit_economics = none) ∧
  (∀ x, d.business_model.channels = some x → s.business_model.channels = x) ∧
  (d.business_model.channels = none → s.business_model.channels = []) ∧
  (∀ x, d.business_model.partnerships = some x → s.business_model.partnerships = x) ∧
  (d.business_model.partnerships = none → s.business_model.partnerships = []) ∧
  (∀ x, d.context.market_size = some x → s.context.market_size = x) ∧
  (d.context.market_size = none → s.context.market_size = none) ∧
  (∀ x, d.context.key_players = some x → s.context.key_players = x) ∧
  (d.context.key_players = none → s.context.key_players = []) ∧
  (∀ x, d.context.recent_developments = some x → s.context.recent_developments = x) ∧
  (d.context.recent_developments = none → s.context.recent_developments = []) ∧
  (∀ x, d.analysis_points = some x → s.analysis_points = x) ∧
  (d.analysis_points = none → s.analysis_points = [])

lemma research_company_preserves (hook : String) (d : SuppliedData) :
    preservesSupplied d (research_company story_template hook d) := by
  unfold preservesSupplied research_company mergeMetrics mergeBusinessModel mergeContext
    story_template
  refine ⟨?_, ?_, ?_, ?_, ?_, ?_, ?_, ?_, ?_, ?_, ?_, ?_, ?_, ?_, ?_, ?_, ?_, ?_, ?_, ?_,
    ?_, ?_, ?_, ?_⟩ <;> intros <;> simp_all

/-- C1: with a caller-supplied profile object, the research API is never
called, and the story handed to full-story generation carries every supplied
field unchanged, defaults filling only the absent ones. -/
theorem supplied_profile_used_directly (env : Env) (d : SuppliedData) (t : String)
    (hhook : env.hookResponse = .ok t) (hne : jsTrim t ≠ "") :
    Call.perplexity ∉ (POST env (.obj d)).2 ∧
      Call.formatStory (research_company story_template (jsTrim t) d) ∈
        (POST env (.obj d)).2 ∧
      ∀ s, Call.formatStory s ∈ (POST env (.obj d)).2 → preservesSupplied d s := by
  have hacq : acquire env (.obj d) = (.obj d, none, []) := rfl
  have ht : truthy (JsValue.obj d) = true := rfl
  have hg : ¬((!truthy (JsValue.obj d) && !optStrTruthy (none : Option String)) = true) := by
    simp [ht]
  unfold POST
  rw [hacq]
  dsimp only
  rw [if_neg hg, if_pos ht, hhook]
  dsimp only [asData]
  have hh : ¬((!optStrTruthy
      (research_company story_template (jsTrim t) d).headline) = true) := by
    simp [research_company, optStrTruthy, hne]
  rw [if_neg hh]
  rcases hs : env.storyResponse with e | s2
  · dsimp only
    refine ⟨by simp, by simp, ?_⟩
    intro s hsmem
    simp only [List.nil_append, List.mem_cons, List.not_mem_nil, or_false] at hsmem
    rcases hsmem with h1 | h1
    · exact Call.noConfusion h1
    · rw [Call.formatStory.inj h1]
      exact research_company_preserves (jsTrim t) d
  · dsimp only
    simp only [List.nil_append]
    rcases finish_trace env (jsTrim s2) none
        [Call.generateHook,
         Call.formatStory (research_company story_template (jsTrim t) d)] with hf | hf
    all_goals rw [hf]
    · refine ⟨by simp, by simp, ?_⟩
      intro s hsmem
      simp only [List.nil_append, List.mem_cons, List.not_mem_nil, or_false] at hsmem
      rcases hsmem with h1 | h1
      · exact Call.noConfusion h1
      · rw [Call.formatStory.inj h1]
        exact research_company_preserves (jsTrim t) d
    · refine ⟨by simp, by simp, ?_⟩
      intro s hsmem
      simp only [List.nil_append, List.mem_append, List.mem_cons, List.not_mem_nil,
        or_false, List.mem_singleton] at hsmem
      rcases hsmem with (h1 | h1) | h1
      · exact Call.noConfusion h1
      · rw [Call.formatStory.inj h1]
        exact research_company_preserves (jsTrim t) d
      · exact Call.noConfusion h1

/-- Witness for C1: a concrete run with a supplied (empty-fields) profile. -/
theorem supplied_profile_used_directly_witness :
    Call.perplexity ∉ (POST envA (.obj emptySupplied)).2 ∧
      Call.formatStory (research_company story_template (jsTrim " A headline ") emptySupplied) ∈
        (POST envA (.obj emptySupplied)).2 :=
  ⟨(supplied_profile_used_directly envA emptySupplied " A headline " rfl (by decide)).1,
   (supplied_profile_used_directly envA emptySupplied " A headline " rfl (by decide)).2.1⟩

/-- C4: the monetary formatting helper.  At or above 10,000,000 an "inr"
value renders as whole-number crores (`toFixed(0)` of value/10^7, i.e.
round half up), below it as the Indian-grouped full value; at or above
1,000,000 a "usd" value renders as whole-number millions, below it as the
US-grouped full value; any other tag yields the plain numeric string.  The
helper is a total function; the concrete INR revenue 5,000,000,000 renders
as "₹500 crores". -/
theorem format_metrics_spec :
    (∀ v : Int, 10000000 ≤ v →
        format_metrics v "inr" = "₹" ++ toString (jsToFixed0 v.toNat 10000000) ++ " crores") ∧
      (∀ v : Int, v < 10000000 → format_metrics v "inr" = "₹" ++ toLocaleStringIN v) ∧
      (∀ v : Int, 1000000 ≤ v →
        format_metrics v "usd" = "$" ++ toString (jsToFixed0 v.toNat 1000000) ++ "M") ∧
      (∀ v : Int, v < 1000000 → format_metrics v "usd" = "$" ++ toLocaleStringUS v) ∧
      (∀ (v : Int) (mt : String), mt ≠ "inr" → mt ≠ "usd" → format_metrics v mt = toString v) ∧
      format_metrics 5000000000 "inr" = "₹500 crores" ∧
      format_metrics 1234567 "inr" = "₹12,34,567" ∧
      format_metrics 123456 "usd" = "$123,456" := by
  have hui : ("usd" : String) ≠ "inr" := by decide
  refine ⟨?_, ?_, ?_, ?_, ?_, by decide, by decide, by decide⟩
  · intro v hv
    simp [format_metrics, hv]
  · intro v hv
    simp [format_metrics, not_le.mpr hv]
  · intro v hv
    simp [format_metrics, hui, hv]
  · intro v hv
    simp [format_metrics, hui, not_le.mpr hv]
  · intro v mt hi hu
    simp [format_metrics, hi, hu]

/-- Witness for C4: a value above the INR threshold, formatted through the
first conjunct of the theorem. -/
theorem format_metrics_spec_witness :
    format_metrics 20000000 "inr" = "₹2 crores" := by
  rw [format_metrics_spec.1 20000000 (by norm_num)]
  decide

/-! ## Code-fence stripping (C7) -/

lemma head_not_ws (L : List Char) (h1 : L.dropWhile Char.isWhitespace = L) (hne : L ≠ []) :
    ∃ c rest, L = c :: rest ∧ c.isWhitespace = false := by
  cases L with
  | nil => exact absurd rfl hne
  | cons c rest =>
    refine ⟨c, rest, rfl, ?_⟩
    have h2 := (List.dropWhile_eq_self_iff).mp h1 (by simp)
    simpa using h2

lemma dropWhile_ws_cons_append (c : Char) (rest X : List Char) (hc : c.isWhitespace = false) :
    ((c :: rest) ++ X).dropWhile Char.isWhitespace = (c :: rest) ++ X := by
  rw [List.cons_append, List.dropWhile_cons, if_neg (by simp [hc])]

lemma suffix_fence (L : List Char) : ("```".data.isSuffixOf (L ++ "\n```".data)) = true := by
  have hs : L ++ "\n```".data = (L ++ "\n".data) ++ "```".data := by
    rw [show "\n```".data = "\n".data ++ "```".data from by decide, List.append_assoc]
  rw [hs]
  exact (List.isSuffixOf_iff_suffix).mpr (List.suffix_append _ _)

lemma take_drop_fence (L : List Char) :
    (L ++ "\n```".data).take ((L ++ "\n```".data).length - 3) = L ++ "\n".data := by
  have hlen : (L ++ "\n```".data).length = L.length + 4 := by simp
  rw [hlen, show L.length + 4 - 3 = L.length + 1 from by omega,
    List.take_append_eq_append_take, List.take_of_length_le (by omega),
    show L.length + 1 - L.length = 1 from by omega,
    show "\n```".data.take 1 = "\n".data from by decide]

lemma jsTrim_append_newline (body : String)
    (h1 : body.data.dropWhile Char.isWhitespace = body.data)
    (h2 : body.data.reverse.dropWhile Char.isWhitespace = body.data.reverse)
    (hne : body.data ≠ []) :
    jsTrim ⟨body.data ++ "\n".data⟩ = body := by
  obtain ⟨c, rest, hL, hc⟩ := head_not_ws body.data h1 hne
  have hdata : (((body.data ++ "\n".data).dropWhile
        Char.isWhitespace).reverse.dropWhile Char.isWhitespace).reverse = body.data := by
    rw [hL, dropWhile_ws_cons_append c rest "\n".data hc, ← hL, List.reverse_append,
      show "\n".data.reverse = "\n".data from by decide]
    have hstep : ("\n".data ++ body.data.reverse).dropWhile Char.isWhitespace
        = body.data.reverse.dropWhile Char.isWhitespace := rfl
    rw [hstep, h2, List.reverse_reverse]
  unfold jsTrim
  cases body
  exact congrArg String.mk hdata

lemma cleanResponse_fenced_json (body : String)
    (h1 : body.data.dropWhile Char.isWhitespace = body.data)
    (h2 : body.data.reverse.dropWhile Char.isWhitespace = body.data.reverse)
    (hne : body.data ≠ []) :
    cleanResponse ("```json\n" ++ body ++ "\n```") = body := by
  obtain ⟨c, rest, hL, hc⟩ := head_not_ws body.data h1 hne
  have hdata : ("```json\n" ++ body ++ "\n```").data
      = "```json\n".data ++ (body.data ++ "\n```".data) := by
    simp [String.data_append]
  unfold cleanResponse stripCodeFences
  rw [hdata]
  rw [if_pos (show ("```json".data.isPrefixOf
    ("```json\n".data ++ (body.data ++ "\n```".data))) = true from rfl)]
  have hdw : (("```json\n".data ++ (body.data ++ "\n```".data)).drop 7).dropWhile
      Char.isWhitespace = body.data ++ "\n```".data := by
    have hred : (("```json\n".data ++ (body.data ++ "\n```".data)).drop 7).dropWhile
        Char.isWhitespace = (body.data ++ "\n```".data).dropWhile Char.isWhitespace := rfl
    rw [hred, hL, dropWhile_ws_cons_append c rest "\n```".data hc, ← hL]
  rw [hdw, if_pos (suffix_fence body.data), take_drop_fence body.data]
  exact jsTrim_append_newline body h1 h2 hne

lemma cleanResponse_fenced_plain (body : String)
    (h1 : body.data.dropWhile Char.isWhitespace = body.data)
    (h2 : body.data.reverse.dropWhile Char.isWhitespace = body.data.reverse)
    (hne : body.data ≠ []) :
    cleanResponse ("```\n" ++ body ++ "\n```") = body := by
  obtain ⟨c, rest, hL, hc⟩ := head_not_ws body.data h1 hne
  have hdata : ("```\n" ++ body ++ "\n```").data
      = "```\n".data ++ (body.data ++ "\n```".data) := by
    simp [String.data_append]
  unfold cleanResponse stripCodeFences
  rw [hdata]
  have hjson : ¬(("```json".data.isPrefixOf
      ("```\n".data ++ (body.data ++ "\n```".data))) = true) := by
    rw [show ("```json".data.isPrefixOf
      ("```\n".data ++ (body.data ++ "\n```".data))) = false from rfl]
    simp
  rw [if_neg hjson]
  rw [if_pos (show ("```".data.isPrefixOf
    ("```\n".data ++ (body.data ++ "\n```".data))) = true from rfl)]
  have hdw : (("```\n".data ++ (body.data ++ "\n```".data)).drop 3).dropWhile
      Char.isWhitespace = body.data ++ "\n```".data := by
    have hred : (("```\n".data ++ (body.data ++ "\n```".data)).drop 3).dropWhile
        Char.isWhitespace = (body.data ++ "\n```".data).dropWhile Char.isWhitespace := rfl
    rw [hred, hL, dropWhile_ws_cons_append c rest "\n```".data hc, ← hL]
  rw [hdw, if_pos (suffix_fence body.data), take_drop_fence body.data]
  exact jsTrim_append_newline body h1 h2 hne

/-- C7: the research response is cleaned by stripping a leading ```` ``` ````
or ```` ```json ```` fence and a trailing ```` ``` ```` fence and trimming,
so a well-formed body wrapped in fences parses as the body itself; if the
cleaned text fails to parse, acquisition raises the parse error and
surfaces no profile. -/
theorem fence_stripping_parse (env : Env) (body content : String) (v : JsValue)
    (h1 : body.data.dropWhile Char.isWhitespace = body.data)
    (h2 : body.data.reverse.dropWhile Char.isWhitespace = body.data.reverse)
    (hne : body ≠ "")
    (hkey : env.perplexityKey.getD "" ≠ "")
    (hresp : env.perplexityResponse = .ok content) :
    cleanResponse ("```json\n" ++ body ++ "\n```") = body ∧
      cleanResponse ("```\n" ++ body ++ "\n```") = body ∧
      (env.parseJson (cleanResponse content) = some v →
        (researchCompanyWithPerplexity env).1 = .ok v) ∧
      (env.parseJson (cleanResponse content) = none →
        (researchCompanyWithPerplexity env).1 =
          .error "Failed to parse JSON response from Perplexity") := by
  have hne' : body.data ≠ [] := by
    intro hd
    apply hne
    cases body
    cases hd
    rfl
  refine ⟨cleanResponse_fenced_json body h1 h2 hne',
    cleanResponse_fenced_plain body h1 h2 hne', ?_, ?_⟩
  · intro hp
    unfold researchCompanyWithPerplexity
    rw [if_neg hkey, hresp]
    dsimp only
    rw [hp]
  · intro hp
    unfold researchCompanyWithPerplexity
    rw [if_neg hkey, hresp]
    dsimp only
    rw [hp]

/-- Concrete environment for the C7 witness: a fenced JSON body and a parse
oracle succeeding exactly on the unfenced body. -/
def envC7 : Env :=
  { envB with
      perplexityResponse := .ok "```json\n\x7b\"a\":1\x7d\n```"
      parseJson := fun s => if s = "\x7b\"a\":1\x7d" then some (.obj emptySupplied) else none }

/-- Witness for C7. -/
theorem fence_stripping_parse_witness :
    cleanResponse "```json\n\x7b\"a\":1\x7d\n```" = "\x7b\"a\":1\x7d" ∧
      (researchCompanyWithPerplexity envC7).1 = .ok (.obj emptySupplied) :=
  ⟨(fence_stripping_parse envC7 "\x7b\"a\":1\x7d" "```json\n\x7b\"a\":1\x7d\n```"
      (.obj emptySupplied) (by decide) (by decide) (by decide) (by decide) rfl).1,
   (fence_stripping_parse envC7 "\x7b\"a\":1\x7d" "```json\n\x7b\"a\":1\x7d\n```"
      (.obj emptySupplied) (by decide) (by decide) (by decide) (by decide) rfl).2.2.1
     (by decide)⟩

/-- C10: `research_company` never mutates the bot's `story_template`.  The
shallow copy shares the template's nested objects, but every update
*reassigns* a field of the copy to a freshly allocated merged object, so
every heap cell that existed before the call — in particular the template's
`context`, `metrics` and `business_model` objects — is untouched, and a
later call on the same bot reads the same defaults. -/
theorem story_template_never_mutated (bot : Bot) (h : Heap) (hook : String)
    (d : SuppliedData) (story : StoryObj) (h' : Heap)
    (hm : bot.story_template.metrics < h.next)
    (hb : bot.story_template.business_model < h.next)
    (hc : bot.story_template.context < h.next)
    (hrun : research_company_js bot h hook d = some (story, h')) :
    (∀ a, a < h.next → h'.mem a = h.mem a) ∧
      h'.readMet bot.story_template.metrics = h.readMet bot.story_template.metrics ∧
      h'.readBm bot.story_template.business_model
        = h.readBm bot.story_template.business_model ∧
      h'.readCtx bot.story_template.context = h.readCtx bot.story_template.context := by
  unfold research_company_js at hrun
  obtain ⟨m0, e1, hrun⟩ := Option.bind_eq_some.mp hrun
  obtain ⟨b0, e2, hrun⟩ := Option.bind_eq_some.mp hrun
  obtain ⟨c0, e3, hrun⟩ := Option.bind_eq_some.mp hrun
  obtain ⟨hS, hH⟩ := (Prod.mk.injEq _ _ _ _).mp (Option.some.inj hrun)
  subst hH
  have hpres : ∀ a, a < h.next →
      ((((h.alloc (.met (mergeMetrics m0 d.metrics))).1.alloc
          (.bm (mergeBusinessModel b0 d.business_model))).1.alloc
          (.ctx (mergeContext c0 d.context))).1).mem a = h.mem a := by
    intro a ha
    dsimp only [Heap.alloc]
    rw [if_neg (by omega), if_neg (by omega), if_neg (by omega)]
  refine ⟨hpres, ?_, ?_, ?_⟩
  · unfold Heap.readMet
    rw [hpres _ hm]
  · unfold Heap.readBm
    rw [hpres _ hb]
  · unfold Heap.readCtx
    rw [hpres _ hc]

/-- The heap produced by constructing the bot on the empty heap. -/
def heap1 : Heap := (mkBot Heap.empty).2

/-- The bot constructed on the empty heap. -/
def bot0 : Bot := (mkBot Heap.empty).1

/-- Witness for C10: running the merge on the freshly constructed bot leaves
the template's metrics object readable and unchanged. -/
theorem story_template_never_mutated_witness :
    ∃ story h', research_company_js bot0 heap1 "Hook" emptySupplied = some (story, h') ∧
      h'.readMet bot0.story_template.metrics = heap1.readMet bot0.story_template.metrics := by
  obtain ⟨story, h', hrun⟩ :
      ∃ s hh, research_company_js bot0 heap1 "Hook" emptySupplied = some (s, hh) :=
    ⟨_, _, rfl⟩
  exact ⟨story, h', hrun,
    (story_template_never_mutated bot0 heap1 "Hook" emptySupplied story h'
      (by decide) (by decide) (by decide) hrun).2.1⟩

end NewsletterBot
